import Mathlib

/-!
Verification development for the stk repository (a Python client library for
the STK Connect socket protocol).  The definitions below are a shallow
embedding of the functions in src/stk/connect.py, src/stk/__init__.py and
src/stk/stk.py; socket input is made explicit (streams of received tokens,
chunks or packets), and Python exceptions become explicit outcome values.
-/

namespace Stk

/-- The Python exceptions the embedded code can raise.  The exception classes of the repository
itself (src/stk/exceptions.py) are STKLicenseError, STKConnectError
and STKNackError; the builtin exceptions AttributeError, ValueError and
IndexError also occur on the embedded paths.  There is no MalformedHeaderError
class anywhere in the repository. -/
inductive PyErr where
  | attributeError
  | valueError
  | indexError
deriving DecidableEq, Repr

/-- Python string slice s[a:b] for 0 <= a <= b (clamping at the ends, as in
Python). -/
def pySlice (s : String) (a b : Nat) : String :=
  String.mk ((s.toList.drop a).take (b - a))

/-- Python string slice s[0:n] where n may be negative (counting from the
end), as in Python. -/
def pySliceTo (s : String) (n : Int) : String :=
  let len : Int := s.toList.length
  let j := if n < 0 then n + len else n
  String.mk (s.toList.take j.toNat)

/-- Python whitespace as stripped by int(): space, tab, newline, carriage
return, vertical tab, form feed. -/
def isPySpace (c : Char) : Bool :=
  c = ' ' || c = '\t' || c = '\n' || c = '\r' || c = '\x0b' || c = '\x0c'

/-- Strip leading and trailing whitespace from a character list. -/
def pyStrip (l : List Char) : List Char :=
  ((l.dropWhile isPySpace).reverse.dropWhile isPySpace).reverse

/-- The value of the Python builtin int() on a string: optional surrounding
whitespace, an optional sign, then a nonempty run of decimal digits; none
otherwise. -/
def pyIntCore (s : String) : Option Int :=
  match pyStrip s.toList with
  | [] => none
  | '+' :: ds =>
      if ds ≠ [] ∧ ds.all Char.isDigit then
        some (ds.foldl (fun a c => 10 * a + (c.toNat - 48 : Int)) 0)
      else none
  | '-' :: ds =>
      if ds ≠ [] ∧ ds.all Char.isDigit then
        some (-(ds.foldl (fun a c => 10 * a + (c.toNat - 48 : Int)) 0))
      else none
  | ds =>
      if ds.all Char.isDigit then
        some (ds.foldl (fun a c => 10 * a + (c.toNat - 48 : Int)) 0)
      else none

/-- Python int(s) on a string: parses a decimal integer or raises ValueError. -/
def pyInt (s : String) : Except PyErr Int :=
  match pyIntCore s with
  | some n => Except.ok n
  | none => Except.error PyErr.valueError

/-- Python 3 method lookup of .decode() on a str value: str has no decode
method (that is a bytes method), so the attribute access raises
AttributeError regardless of the contents. -/
def strDecode (_s : String) : Except PyErr String :=
  Except.error PyErr.attributeError

/-- AsyncHeader (src/stk/connect.py lines 604-673 and the identical copy in
src/stk/__init__.py).  After init, self.raw is always a Python str: a bytes
argument is decoded, a str argument is stored as is. -/
structure AsyncHeader where
  raw : String
deriving DecidableEq, Repr

/-- AsyncHeader.init: stores the (decoded) string without any validation. -/
def asyncHeaderInit (bytestring : String) : AsyncHeader :=
  { raw := bytestring }

namespace AsyncHeader

/-- self.raw[0:3].decode() -/
def sync (h : AsyncHeader) : Except PyErr String :=
  strDecode (pySlice h.raw 0 3)

/-- int(self.raw[3:5].decode()) -/
def header_length (h : AsyncHeader) : Except PyErr Int :=
  (strDecode (pySlice h.raw 3 5)).bind pyInt

/-- int(self.raw[5].decode()) -/
def major_version (h : AsyncHeader) : Except PyErr Int :=
  (strDecode (pySlice h.raw 5 6)).bind pyInt

/-- int(self.raw[6].decode()) -/
def minor_version (h : AsyncHeader) : Except PyErr Int :=
  (strDecode (pySlice h.raw 6 7)).bind pyInt

/-- int(self.raw[7:9]) -/
def type_length (h : AsyncHeader) : Except PyErr Int :=
  pyInt (pySlice h.raw 7 9)

/-- (self.raw[9:24])[0:self.type_length] -/
def async_type (h : AsyncHeader) : Except PyErr String :=
  (h.type_length).map (fun n => pySliceTo (pySlice h.raw 9 24) n)

/-- int(self.raw[24:30]) -/
def identifier (h : AsyncHeader) : Except PyErr Int :=
  pyInt (pySlice h.raw 24 30)

/-- int(self.raw[30:34]) -/
def total_packets (h : AsyncHeader) : Except PyErr Int :=
  pyInt (pySlice h.raw 30 34)

/-- int(self.raw[34:38]) -/
def packet_number (h : AsyncHeader) : Except PyErr Int :=
  pyInt (pySlice h.raw 34 38)

/-- int(self.raw[38:42]) -/
def data_length (h : AsyncHeader) : Except PyErr Int :=
  pyInt (pySlice h.raw 38 42)

end AsyncHeader

/-- Does the first list start with the second? -/
def chStartsWith : List Char → List Char → Bool
  | _, [] => true
  | [], _ :: _ => false
  | a :: as, b :: bs => a == b && chStartsWith as bs

/-- Worker for chSplit: scans the input left to right, cutting at each
leftmost non-overlapping occurrence of the (nonempty) separator, exactly as
the Python str.split(sep) method does.  The fuel argument only bounds the
recursion; chSplit supplies enough for the scan to finish. -/
def chSplitAux (sep : List Char) : Nat → List Char → List Char → List (List Char)
  | 0, cur, s => [cur.reverse ++ s]
  | fuel + 1, cur, s =>
    match s with
    | [] => [cur.reverse]
    | c :: rest =>
      if sep ≠ [] && chStartsWith (c :: rest) sep then
        cur.reverse :: chSplitAux sep fuel [] (rest.drop (sep.length - 1))
      else
        chSplitAux sep fuel (c :: cur) rest

/-- Python str.split(sep) for a nonempty separator, over character lists. -/
def chSplit (sep s : List Char) : List (List Char) :=
  chSplitAux sep (s.length + 1) [] s

/-- _AbstractConnect._send (src/stk/connect.py lines 181-183, identically
STKConnect._send): transmits (message + a newline).encode() on the socket with
no validation of the message text.  The returned value is the transmitted
text; no failure path exists in the source. -/
def sendFrame (message : String) : Except PyErr String :=
  Except.ok (message ++ "\n")

/-- The text of the STKNackError raised by get_ack on a NACK
(AsyncConnect.get_ack / STKConnect.get_ack). -/
def nackText (message : String) : String :=
  "NACK Received: stk.send(\"" ++ message ++ "\")"

/-- The outcome of _AbstractConnect.send: either a normal return or a raised
STKNackError, in both cases together with the list of frames transmitted on
the socket. -/
inductive SendOutcome where
  | ok (sent : List String)
  | nackError (err : String) (sent : List String)
deriving DecidableEq, Repr

/-- The frames transmitted before the outcome. -/
def SendOutcome.sent : SendOutcome → List String
  | .ok s => s
  | .nackError _ s => s

/-- The retry loop of _AbstractConnect.send (src/stk/connect.py lines
167-179, identically STKConnect.send): each iteration increments the attempt
counter, transmits the framed command, and when the acknowledgement read
reports a NACK (resp i = false for the i-th transmission) either re-raises
STKNackError (once attempt >= attempts) or loops.  acc accumulates the
frames transmitted so far; the fuel argument only bounds the recursion and
send supplies enough for the loop to finish. -/
def sendLoop (resp : Nat → Bool) (message : String) (attempts : Nat) :
    Nat → Nat → List String → SendOutcome
  | _, 0, acc => SendOutcome.nackError (nackText message) acc
  | attempt, fuel + 1, acc =>
    let i := attempt + 1
    let acc2 := acc ++ [message ++ "\n"]
    if resp i then SendOutcome.ok acc2
    else if attempts ≤ i then SendOutcome.nackError (nackText message) acc2
    else sendLoop resp message attempts i fuel acc2

/-- _AbstractConnect.send(message, attempts): when ack is disabled get_ack is
never called, so no STKNackError can be caught and the loop returns after the
first transmission; when ack is enabled the i-th acknowledgement read yields
ACK when resp i = true and NACK otherwise. -/
def send (ackEnabled : Bool) (resp : Nat → Bool) (message : String)
    (attempts : Nat) : SendOutcome :=
  match ackEnabled with
  | true => sendLoop resp message attempts 0 (attempts + 1) []
  | false => sendLoop (fun _ => true) message attempts 0 (attempts + 1) []

/-- The outcome of _AbstractConnect._connect, with the number of socket
connect attempts made. -/
inductive ConnectOutcome where
  | ok (attemptsMade : Nat)
  | connectError (attemptsMade : Nat)
deriving DecidableEq, Repr

/-- The retry loop of _AbstractConnect._connect (src/stk/connect.py lines
133-147, identically STKConnect._connect): each iteration increments the
attempt counter and tries socket.connect, which is accepted when accepts i =
true and refused (ConnectionRefusedError) otherwise.  The finally clause
runs on BOTH the refused and the accepted path before the return completes,
and raises STKConnectError whenever attempt >= connect_attempts - also when
this very attempt was accepted.  The fuel argument only bounds the
recursion; connectModel supplies enough for the loop to finish. -/
def connectLoop (accepts : Nat → Bool) (budget : Nat) : Nat → Nat → ConnectOutcome
  | attempt, 0 => ConnectOutcome.connectError attempt
  | attempt, fuel + 1 =>
    let i := attempt + 1
    if accepts i then
      if budget ≤ i then ConnectOutcome.connectError i else ConnectOutcome.ok i
    else
      if budget ≤ i then ConnectOutcome.connectError i
      else connectLoop accepts budget i fuel

/-- _AbstractConnect._connect with connect_attempts = budget. -/
def connectModel (accepts : Nat → Bool) (budget : Nat) : ConnectOutcome :=
  connectLoop accepts budget 0 (budget + 1)

/-- The outcome of Connect.get_ack: a normal return, a raised STKNackError,
or an interpreter exit via sys.exit. -/
inductive AckOutcome where
  | ackOk
  | nackError (err : String)
  | systemExit (code : Nat)
deriving DecidableEq, Repr

/-- Is the outcome a raised error that propagates to the caller? -/
def AckOutcome.raisesError : AckOutcome → Bool
  | .nackError _ => true
  | _ => false

/-- Python str.rstrip(): strip trailing whitespace. -/
def pyRstrip (s : String) : String :=
  String.mk (s.toList.reverse.dropWhile isPySpace).reverse

/-- Connect.get_ack (src/stk/connect.py lines 477-488): tok is the 3-byte
token returned by socket.recv(3).  On "ACK" it returns; on "NAC" it reads one
further byte and raises STKNackError carrying the command text; on any other
token it logs the unexpected data and calls sys.exit(1). -/
def connectGetAck (tok : String) (message : String) : AckOutcome :=
  if tok = "ACK" then AckOutcome.ackOk
  else if tok = "NAC" then
    AckOutcome.nackError ("NACK Received: stk.send(\"" ++ pyRstrip message ++ "\")")
  else AckOutcome.systemExit 1

/-- One already-parsed async packet, as produced by get_single_message /
get_message: the total_packets and packet_number fields of its AsyncHeader
and its payload. -/
structure Packet where
  total : Nat
  num : Nat
  data : String
deriving DecidableEq, Repr

/-- Python list item assignment l[i] = v with Python index semantics: a
negative index counts from the end, an out-of-range index raises
IndexError. -/
def pySetItem (l : List (Option String)) (i : Int) (v : Option String) :
    Except PyErr (List (Option String)) :=
  let n : Int := l.length
  let j := if i < 0 then i + n else i
  if 0 ≤ j ∧ j < n then Except.ok (l.set j.toNat v)
  else Except.error PyErr.indexError

/-- The for-loop body of STKConnect.get_messages: place each further packet
payload at index packet_number - 1. -/
def getMessagesLoop (grp : List (Option String)) :
    List Packet → Except PyErr (List (Option String))
  | [] => Except.ok grp
  | p :: rest => do
      let grp2 ← pySetItem grp ((p.num : Int) - 1) (some p.data)
      getMessagesLoop grp2 rest

/-- The trailing cleanup shared by both multi-message readers:
if msg_grp[-1] == '' then del msg_grp[-1] (on an empty list, msg_grp[-1]
raises IndexError; a None slot never equals the empty string). -/
def dropTrailingEmpty (grp : List (Option String)) :
    Except PyErr (List (Option String)) :=
  match grp.getLast? with
  | none => Except.error PyErr.indexError
  | some last => Except.ok (if last = some "" then grp.dropLast else grp)

/-- STKConnect.get_messages (src/stk/__init__.py lines 152-166): reads a
first packet, allocates [None] * total_packets, stores its payload at index
packet_number - 1, then reads total_packets - 1 further packets (rest lists
the packets in arrival order) storing each at its own packet_number - 1,
and finally drops a trailing empty payload. -/
def getMessages (first : Packet) (rest : List Packet) :
    Except PyErr (List (Option String)) := do
  let n := first.total
  let grp ← pySetItem (List.replicate n none) ((first.num : Int) - 1) (some first.data)
  let grp ← getMessagesLoop grp (rest.take (n - 1))
  dropTrailingEmpty grp

/-- AsyncConnect.get_multi_message (src/stk/connect.py lines 558-572): the
same reassembly, except that the body of the for-loop over the remaining
total_packets - 1 packets calls self.get_message() - and neither
AsyncConnect nor _AbstractConnect defines a get_message attribute (the
reader methods are named get_single_message), so the first loop iteration
raises AttributeError whenever total_packets >= 2. -/
def getMultiMessage (first : Packet) (_rest : List Packet) :
    Except PyErr (List (Option String)) := do
  let n := first.total
  let grp ← pySetItem (List.replicate n none) ((first.num : Int) - 1) (some first.data)
  if 2 ≤ n then Except.error PyErr.attributeError
  else dropTrailingEmpty grp

/-- The literal report-row marker used by AsyncConnect.report_rm and
STKConnect.report (sync AGI, header length 42, version 1.0, type length 09,
type REPORT_RM padded to 15 characters). -/
def reportMarker : String := "AGI421009REPORT_RM      "

/-- Connect.report_rm after the read (src/stk/connect.py lines 531-535):
buffer is the decoded result of read().  When the buffer is empty it returns
the empty list - and otherwise it logs the buffer and also returns the empty
list; the synchronous variant never splits the buffer into rows. -/
def connectReportRm (buffer : String) : List String :=
  if buffer.length = 0 then [] else []

/-- AsyncConnect.report_rm after the read (src/stk/connect.py lines
598-601, identically STKConnect.report): an empty buffer gives the empty
list; otherwise the buffer is split on the literal marker, the first
(pre-marker) segment is dropped, and each remaining segment loses its first
18 characters (x[18:]). -/
def asyncReportRm (buffer : String) : List String :=
  if buffer.length = 0 then []
  else ((chSplit reportMarker.toList buffer.toList).drop 1).map
    (fun x => String.mk (x.drop 18))

/-- The keyword arguments recognized by _AbstractConnect.init, each either
supplied or absent.  The values carry the types the documentation
prescribes, on which the str()/int()/bool()/float() coercions in the source
are the identity (float(1) = 1.0 is modelled exactly by the rational 1). -/
structure ConnectKwargs where
  host : Option String := none
  port : Option Int := none
  ack : Option Bool := none
  connect_attempts : Option Int := none
  send_attempts : Option Int := none
  timeout : Option ℚ := none

/-- The attributes set by _AbstractConnect.init. -/
structure ConnectState where
  host : String
  port : Int
  ack : Bool
  connect_attempts : Int
  send_attempts : Int
  timeout : ℚ
deriving DecidableEq, Repr

/-- _AbstractConnect.init (src/stk/connect.py lines 86-95): each attribute
is kwargs.get(name, default). -/
def abstractConnectInit (k : ConnectKwargs) : ConnectState :=
  { host := k.host.getD "localhost"
    port := k.port.getD 5001
    ack := k.ack.getD true
    connect_attempts := k.connect_attempts.getD 5
    send_attempts := k.send_attempts.getD 1
    timeout := k.timeout.getD 1 }

/-- The keyword arguments of Run.init relevant to the configuration claim
(src/stk/stk.py lines 145-157). -/
structure RunKwargs where
  host : Option String := none
  port : Option Int := none
  ack : Option Bool := none
  connect_attempts : Option Int := none
  send_attempts : Option Int := none
  timeout : Option ℚ := none

/-- The corresponding attributes set by Run.init. -/
structure RunState where
  host : String
  port : Int
  ack : Bool
  connect_attempts : Int
  send_attempts : Int
  timeout : ℚ
deriving DecidableEq, Repr

/-- Run.init (src/stk/stk.py lines 148-157).  The port line of the source
reads self.port = int(kwargs.get("host", 5001)): it looks up the HOST key,
so a supplied port option is ignored, the default 5001 is used whenever host
is absent, and a supplied host string is passed to int() (raising ValueError
for a non-numeric host).  The remaining attributes use their own keys. -/
def runInit (k : RunKwargs) : Except PyErr RunState := do
  let host := k.host.getD "localhost"
  let port ← match k.host with
    | some h => pyInt h
    | none => Except.ok 5001
  Except.ok
    { host := host
      port := port
      ack := k.ack.getD true
      connect_attempts := k.connect_attempts.getD 5
      send_attempts := k.send_attempts.getD 1
      timeout := k.timeout.getD 1 }

/-- One socket.recv event seen by the read loop: either a socket.timeout
exception or a received chunk (the empty chunk is what recv returns at
end-of-stream when the peer has closed the connection). -/
inductive RecvEvent where
  | timeout
  | chunk (data : String)
deriving DecidableEq, Repr

/-- The loop of _AbstractConnect.read (src/stk/connect.py lines 212-219,
identically STKConnect.read): buffer += recv(4096) forever, returning the
buffer exactly when a recv raises socket.timeout.  stream i is the i-th recv
event.  The fuel argument bounds how many loop iterations are examined: the
value none means the loop has not returned within that many iterations. -/
def readLoop (stream : Nat → RecvEvent) : Nat → Nat → String → Option String
  | _, 0, _ => none
  | i, fuel + 1, buffer =>
    match stream i with
    | RecvEvent.timeout => some buffer
    | RecvEvent.chunk d => readLoop stream (i + 1) fuel (buffer ++ d)

/-- A well-formed 42-character async header: sync AGI, header length 42,
version 1.0, type length 09, type REPORT_RM padded to 15 characters,
identifier 001009, total packets 0003, packet number 0002, data length
0042. -/
def goodHeader : String := "AGI421009REPORT_RM      001009000300020042"

/-- A 42-character input whose sync marker is wrong and whose numeric
subfields are all non-numeric. -/
def malformedHeader : String := "XXXXXXXXXXXXXXXXXXXXXXXXXXXXXXXXXXXXXXXXXX"

/-- A report buffer holding one marker followed by an 18-character
sub-header and one row of data. -/
def reportBufferEx : String := reportMarker ++ "001009000100010008" ++ "row data"

/-- A report buffer holding two marker-delimited segments, each an
18-character sub-header followed by a row. -/
def reportBufferEx2 : String :=
  reportMarker ++ "001009000200010008" ++ "row one." ++
  reportMarker ++ "001009000200020008" ++ "row two."

/-! Helper lemmas about the send retry loop and the splitter. -/

theorem sendLoop_sent_all (resp : Nat → Bool) (message : String) (attempts : Nat) :
    ∀ (fuel attempt : Nat) (acc : List String),
      (∀ f ∈ acc, f = message ++ "\n") →
      ∀ f ∈ (sendLoop resp message attempts attempt fuel acc).sent,
        f = message ++ "\n" := by
  intro fuel
  induction fuel with
  | zero =>
    intro attempt acc hacc f hf
    exact hacc f hf
  | succ n ih =>
    intro attempt acc hacc f hf
    have hacc2 : ∀ g ∈ acc ++ [message ++ "\n"], g = message ++ "\n" := by
      intro g hg
      rcases List.mem_append.mp hg with h | h
      · exact hacc g h
      · simpa using h
    simp only [sendLoop] at hf
    split at hf
    · exact hacc2 f hf
    · split at hf
      · exact hacc2 f hf
      · exact ih (attempt + 1) (acc ++ [message ++ "\n"]) hacc2 f hf

theorem sendLoop_sent_length (resp : Nat → Bool) (message : String) (attempts : Nat) :
    ∀ (fuel attempt : Nat) (acc : List String), attempt < attempts →
      (sendLoop resp message attempts attempt fuel acc).sent.length
        ≤ acc.length + (attempts - attempt) := by
  intro fuel
  induction fuel with
  | zero =>
    intro attempt acc _
    simp only [sendLoop, SendOutcome.sent]
    omega
  | succ n ih =>
    intro attempt acc hlt
    simp only [sendLoop]
    split
    · simp only [SendOutcome.sent, List.length_append, List.length_singleton]
      omega
    · split
      · simp only [SendOutcome.sent, List.length_append, List.length_singleton]
        omega
      · rename_i hle
        have h2 : attempt + 1 < attempts := by omega
        have := ih (attempt + 1) (acc ++ [message ++ "\n"]) h2
        simp only [List.length_append, List.length_singleton] at this
        omega

theorem sendLoop_all_nack (resp : Nat → Bool) (message : String) (attempts : Nat)
    (hresp : ∀ i, resp i = false) :
    ∀ (fuel attempt : Nat) (acc : List String),
      attempt < attempts → attempts - attempt ≤ fuel →
      sendLoop resp message attempts attempt fuel acc
        = SendOutcome.nackError (nackText message)
            (acc ++ List.replicate (attempts - attempt) (message ++ "\n")) := by
  intro fuel
  induction fuel with
  | zero =>
    intro attempt acc hlt hfuel
    omega
  | succ n ih =>
    intro attempt acc hlt hfuel
    simp only [sendLoop, hresp (attempt + 1), Bool.false_eq_true, if_false]
    split
    · rename_i hle
      have h1 : attempts - attempt = 1 := by omega
      simp [h1]
    · rename_i hgt
      have h2 : attempt + 1 < attempts := by omega
      have h3 : attempts - (attempt + 1) ≤ n := by omega
      rw [ih (attempt + 1) (acc ++ [message ++ "\n"]) h2 h3]
      have h4 : attempts - attempt = (attempts - (attempt + 1)) + 1 := by omega
      rw [h4, List.replicate_succ, List.append_assoc]
      rfl

theorem chSplitAux_no_sep_append (c : Char) :
    ∀ (l : List Char) (fuel : Nat) (cur : List Char),
      l.all (fun a => a != c) = true → l.length + 2 ≤ fuel →
      chSplitAux [c] fuel cur (l ++ [c]) = [cur.reverse ++ l, []] := by
  intro l
  induction l with
  | nil =>
    intro fuel cur _ hfuel
    obtain ⟨f, rfl⟩ : ∃ f, fuel = f + 2 := ⟨fuel - 2, by omega⟩
    simp [chSplitAux, chStartsWith]
  | cons a l ih =>
    intro fuel cur hall hfuel
    obtain ⟨f, rfl⟩ : ∃ f, fuel = f + 1 := ⟨fuel - 1, by omega⟩
    simp only [List.all_cons, Bool.and_eq_true] at hall
    have ha : (a == c) = false := by
      simpa using hall.1
    simp only [List.cons_append, chSplitAux, chStartsWith, ha, Bool.false_and,
      Bool.and_false, ne_eq, if_false]
    rw [ih f (a :: cur) hall.2 (by simp at hfuel ⊢; omega)]
    simp

/-! The claim theorems. -/

/-- C1: for every attempts budget a >= 1, send transmits the framed command
(message + newline) and, with acknowledgement enabled, reads the
acknowledgement after each transmission; on each NACK it re-sends the whole
command, it performs at most a transmissions, after the a-th NACK it raises
STKNackError carrying the offending command text, and with attempts = 1 a
single NACK raises immediately after one transmission.  With
acknowledgement disabled it transmits once and returns. -/
theorem send_retry_budget (a : Nat) (ha : 1 ≤ a) (resp : Nat → Bool) (msg : String) :
    (send true resp msg a).sent.length ≤ a ∧
    (∀ f ∈ (send true resp msg a).sent, f = msg ++ "\n") ∧
    ((∀ i, resp i = false) →
      send true resp msg a
        = SendOutcome.nackError (nackText msg) (List.replicate a (msg ++ "\n"))) ∧
    (resp 1 = false →
      send true resp msg 1
        = SendOutcome.nackError (nackText msg) [msg ++ "\n"]) ∧
    send false resp msg a = SendOutcome.ok [msg ++ "\n"] := by
  refine ⟨?_, ?_, ?_, ?_, ?_⟩
  · have := sendLoop_sent_length resp msg a (a + 1) 0 [] (by omega)
    simpa [send] using this
  · intro f hf
    exact sendLoop_sent_all resp msg a (a + 1) 0 [] (by simp) f hf
  · intro h
    have := sendLoop_all_nack resp msg a h (a + 1) 0 [] (by omega) (by omega)
    simpa [send] using this
  · intro h
    simp [send, sendLoop, h]
  · rfl

/-- Witness for C1 at a = 2, an all-NACK acknowledgement stream and the
command "Unload / *". -/
theorem send_retry_budget_witness :
    (send true (fun _ => false) "Unload / *" 2).sent.length ≤ 2 ∧
    (∀ f ∈ (send true (fun _ => false) "Unload / *" 2).sent, f = "Unload / *" ++ "\n") ∧
    ((∀ i, (fun _ : Nat => false) i = false) →
      send true (fun _ => false) "Unload / *" 2
        = SendOutcome.nackError (nackText "Unload / *")
            (List.replicate 2 ("Unload / *" ++ "\n"))) ∧
    ((fun _ : Nat => false) 1 = false →
      send true (fun _ => false) "Unload / *" 1
        = SendOutcome.nackError (nackText "Unload / *") ["Unload / *" ++ "\n"]) ∧
    send false (fun _ => false) "Unload / *" 2 = SendOutcome.ok ["Unload / *" ++ "\n"] :=
  send_retry_budget 2 (by decide) (fun _ => false) "Unload / *"

/-- C2: for the three-packet response with total_packets = 3 arriving in
packet_number order 2, 1, 3, the legacy STKConnect.get_messages reassembles
the payloads at indices [1, 0, 2] by packet_number; but
AsyncConnect.get_multi_message raises AttributeError on the same input,
because its loop calls self.get_message(), a method AsyncConnect does not
have (its reader is named get_single_message). -/
theorem multi_message_reassembly :
    getMultiMessage ⟨3, 2, "beta"⟩ [⟨3, 1, "alpha"⟩, ⟨3, 3, "gamma"⟩]
      = Except.error PyErr.attributeError ∧
    getMessages ⟨3, 2, "beta"⟩ [⟨3, 1, "alpha"⟩, ⟨3, 3, "gamma"⟩]
      = Except.ok [some "alpha", some "beta", some "gamma"] :=
  ⟨rfl, rfl⟩

/-- C3: with a remote that refuses the first two connection attempts and
accepts from the third on, _connect with budget 5 succeeds after 3 attempts
and _connect with budget 2 raises STKConnectError after 2 attempts, as the
claim says; but with budget 3 the third attempt is accepted and _connect
STILL raises STKConnectError, because the finally clause raises whenever
attempt >= connect_attempts, including on the successful path - refuting
the claim that connect succeeds whenever the connect is accepted within the
first m attempts. -/
theorem connect_retry_boundary :
    connectModel (fun i => decide (3 ≤ i)) 5 = ConnectOutcome.ok 3 ∧
    connectModel (fun i => decide (3 ≤ i)) 2 = ConnectOutcome.connectError 2 ∧
    connectModel (fun i => decide (3 ≤ i)) 3 = ConnectOutcome.connectError 3 :=
  ⟨rfl, rfl, rfl⟩

/-- C4: on a well-formed 42-character header the accessors type_length,
async_type, identifier, total_packets, packet_number and data_length
round-trip the encoded values; but sync, header_length, major_version and
minor_version raise AttributeError on every input, because they call
.decode() on self.raw, which is a Python 3 str - refuting the claim that
every accessor yields its encoded value without raising. -/
theorem asyncHeader_field_roundtrip_bug :
    (asyncHeaderInit goodHeader).type_length = Except.ok 9 ∧
    (asyncHeaderInit goodHeader).async_type = Except.ok "REPORT_RM" ∧
    (asyncHeaderInit goodHeader).identifier = Except.ok 1009 ∧
    (asyncHeaderInit goodHeader).total_packets = Except.ok 3 ∧
    (asyncHeaderInit goodHeader).packet_number = Except.ok 2 ∧
    (asyncHeaderInit goodHeader).data_length = Except.ok 42 ∧
    (asyncHeaderInit goodHeader).sync = Except.error PyErr.attributeError ∧
    (asyncHeaderInit goodHeader).header_length = Except.error PyErr.attributeError ∧
    (asyncHeaderInit goodHeader).major_version = Except.error PyErr.attributeError ∧
    (asyncHeaderInit goodHeader).minor_version = Except.error PyErr.attributeError :=
  ⟨rfl, rfl, rfl, rfl, rfl, rfl, rfl, rfl, rfl, rfl⟩

/-- C5 counterexample: on a 42-character input whose sync marker is wrong
and whose numeric subfields are all non-numeric, AsyncHeader construction
succeeds and returns a value (there is no validation in init), and the
numeric accessors raise ValueError, not a MalformedHeaderError - no such
class exists in the repository (src/stk/exceptions.py defines only
STKLicenseError, STKConnectError and STKNackError). -/
theorem asyncHeader_no_validation_counterexample :
    asyncHeaderInit malformedHeader = { raw := malformedHeader } ∧
    (asyncHeaderInit malformedHeader).total_packets = Except.error PyErr.valueError ∧
    (asyncHeaderInit malformedHeader).data_length = Except.error PyErr.valueError :=
  ⟨rfl, rfl, rfl⟩

/-- C5 amended: AsyncHeader construction never validates and always returns
a value; accessing a numeric field whose substring does not parse as a
Python int raises ValueError (and a wrong sync marker is never detected as
such). -/
theorem asyncHeader_no_validation (s : String)
    (h : pyIntCore (pySlice s 30 34) = none) :
    asyncHeaderInit s = { raw := s } ∧
    (asyncHeaderInit s).total_packets = Except.error PyErr.valueError := by
  refine ⟨rfl, ?_⟩
  simp [asyncHeaderInit, AsyncHeader.total_packets, pyInt, h]

/-- Witness for C5 amended at the malformed 42-character input. -/
theorem asyncHeader_no_validation_witness :
    asyncHeaderInit malformedHeader = { raw := malformedHeader } ∧
    (asyncHeaderInit malformedHeader).total_packets = Except.error PyErr.valueError :=
  asyncHeader_no_validation malformedHeader rfl

/-- C6 counterexample: on a nonempty buffer holding one marker-delimited
report row, the synchronous Connect.report_rm returns the empty list (its
body ends in return [] after logging the buffer), while the decoded-rows
behaviour the claim ascribes to both variants produces the row - so the
claim fails for the synchronous variant. -/
theorem report_rm_sync_counterexample :
    connectReportRm reportBufferEx = [] ∧
    asyncReportRm reportBufferEx = ["row data"] ∧
    (["row data"] : List String) ≠ [] :=
  ⟨rfl, rfl, by decide⟩

/-- C6 amended: report_rm builds and sends the Report_RM command and reads
until idle; the AsyncConnect variant (and the identical STKConnect.report)
then returns the empty sequence for an empty buffer and otherwise the
buffer split on the literal marker with the pre-marker segment dropped and
18 characters stripped from each remaining segment - but the synchronous
Connect.report_rm always returns the empty list, whatever arrived. -/
theorem report_rm_amended (buffer : String) :
    connectReportRm buffer = [] ∧
    (buffer = "" → asyncReportRm buffer = []) ∧
    asyncReportRm reportBufferEx2 = ["row one.", "row two."] := by
  refine ⟨?_, ?_, rfl⟩
  · unfold connectReportRm
    split <;> rfl
  · intro h
    subst h
    rfl

/-- Witness for C6 amended at the empty buffer. -/
theorem report_rm_amended_witness :
    connectReportRm "" = [] ∧
    asyncReportRm "" = [] ∧
    asyncReportRm reportBufferEx2 = ["row one.", "row two."] :=
  ⟨(report_rm_amended "").1, (report_rm_amended "").2.1 rfl, (report_rm_amended "").2.2⟩

/-- C7 counterexample: _send does not reject a command text that already
contains a newline - on "a\nb" it happily transmits "a\nb\n" (two wire
lines) instead of failing, refuting the rejection half of the claim. -/
theorem send_newline_counterexample :
    ('\n' ∈ "a\nb".toList) ∧
    sendFrame "a\nb" = Except.ok "a\nb\n" ∧
    ¬ ∃ e, sendFrame "a\nb" = Except.error e := by
  refine ⟨by decide, rfl, ?_⟩
  rintro ⟨e, he⟩
  simp [sendFrame] at he

/-- C7 amended: _send appends exactly one newline to the command text and
encodes it, for every text - including texts already containing a newline,
which are transmitted unrejected; for newline-free texts the framing
round-trips: splitting the transmitted frame on the newline recovers the
original text (followed by the empty trailing segment). -/
theorem send_appends_newline (message : String) :
    sendFrame message = Except.ok (message ++ "\n") ∧
    (message.toList.all (fun a => a != '\n') = true →
      chSplit ['\n'] (message ++ "\n").toList = [message.toList, []]) := by
  refine ⟨rfl, ?_⟩
  intro h
  have hlist : (message ++ "\n").toList = message.toList ++ ['\n'] := by
    simp [String.toList, String.data_append]
  rw [chSplit, hlist]
  have := chSplitAux_no_sep_append '\n' message.toList
    ((message.toList ++ ['\n']).length + 1) [] h (by simp)
  simpa using this

/-- Witness for C7 amended at the newline-free command "Unload / *". -/
theorem send_appends_newline_witness :
    sendFrame "Unload / *" = Except.ok ("Unload / *" ++ "\n") ∧
    chSplit ['\n'] ("Unload / *" ++ "\n").toList = [("Unload / *").toList, []] :=
  ⟨(send_appends_newline "Unload / *").1,
   (send_appends_newline "Unload / *").2 (by decide)⟩

/-- C8 counterexample: on the unexpected 3-byte token "XYZ",
Connect.get_ack does not raise an error the caller can observe - it calls
sys.exit(1), terminating the interpreter, refuting the claim that the
outcome is an exception rather than any other form of termination. -/
theorem get_ack_unknown_token_counterexample :
    connectGetAck "XYZ" "cmd" = AckOutcome.systemExit 1 ∧
    (connectGetAck "XYZ" "cmd").raisesError = false :=
  ⟨rfl, rfl⟩

/-- C8 amended: any 3-byte token other than "ACK" or "NAC" is detected (it
is never treated as a successful acknowledgement, so nothing is silently
swallowed), but the outcome is process termination via sys.exit(1), not a
raised error propagating to the caller. -/
theorem get_ack_unknown_token_exits (tok message : String)
    (h1 : tok ≠ "ACK") (h2 : tok ≠ "NAC") :
    connectGetAck tok message = AckOutcome.systemExit 1 ∧
    connectGetAck tok message ≠ AckOutcome.ackOk := by
  constructor
  · simp [connectGetAck, h1, h2]
  · simp [connectGetAck, h1, h2]

/-- Witness for C8 amended at the token "XYZ". -/
theorem get_ack_unknown_token_exits_witness :
    connectGetAck "XYZ" "cmd" = AckOutcome.systemExit 1 ∧
    connectGetAck "XYZ" "cmd" ≠ AckOutcome.ackOk :=
  get_ack_unknown_token_exits "XYZ" "cmd" (by decide) (by decide)

/-- C9: _AbstractConnect.init yields exactly the documented defaults
(localhost, 5001, ack on, 5 connect attempts, 1 send attempt, timeout 1.0)
and honours a supplied port; Run.init yields the same defaults when no
options are given - but a supplied port option is ignored (port stays
5001), and supplying a non-numeric host makes init raise ValueError,
because the source line for port reads int(kwargs.get("host", 5001)),
looking up the host key instead of the port key. -/
theorem init_defaults_and_port_bug :
    abstractConnectInit {} = ⟨"localhost", 5001, true, 5, 1, 1⟩ ∧
    (abstractConnectInit { port := some 6001 }).port = 6001 ∧
    runInit {} = Except.ok ⟨"localhost", 5001, true, 5, 1, 1⟩ ∧
    runInit { port := some 6001 } = Except.ok ⟨"localhost", 5001, true, 5, 1, 1⟩ ∧
    runInit { host := some "example.com", port := some 6001 }
      = Except.error PyErr.valueError :=
  ⟨rfl, rfl, rfl, rfl, rfl⟩

/-- C10: the read loop returns only when a recv raises socket.timeout - for
every iteration bound, when each recv yields the empty chunk of a
closed peer the loop has still not returned (end-of-stream never causes
read() to return), and every return within any bound is caused by a timeout
event in the consumed stream. -/
theorem read_terminates_only_on_timeout :
    (∀ (fuel i : Nat) (buffer : String),
      readLoop (fun _ => RecvEvent.chunk "") i fuel buffer = none) ∧
    (∀ (stream : Nat → RecvEvent) (fuel i : Nat) (buffer r : String),
      readLoop stream i fuel buffer = some r →
      ∃ j, stream j = RecvEvent.timeout) := by
  constructor
  · intro fuel
    induction fuel with
    | zero => intro i buffer; rfl
    | succ n ih => intro i buffer; exact ih (i + 1) (buffer ++ "")
  · intro stream fuel
    induction fuel with
    | zero =>
      intro i buffer r h
      simp [readLoop] at h
    | succ n ih =>
      intro i buffer r h
      cases hs : stream i with
      | timeout => exact ⟨i, hs⟩
      | chunk d =>
        simp only [readLoop, hs] at h
        exact ih (i + 1) (buffer ++ d) r h

/-- Witness for C10: five empty-chunk reads return nothing, and a stream
whose first event is a timeout returns at once, exhibiting its timeout
event. -/
theorem read_terminates_only_on_timeout_witness :
    readLoop (fun _ => RecvEvent.chunk "") 0 5 "" = none ∧
    (∃ j, (fun _ : Nat => RecvEvent.timeout) j = RecvEvent.timeout) :=
  ⟨read_terminates_only_on_timeout.1 5 0 "",
   read_terminates_only_on_timeout.2 (fun _ => RecvEvent.timeout) 1 0 "" "" rfl⟩

end Stk
